import Mathlib

/-!
Shallow embedding of the EDTSP protocol core:
wire codec (`src/src/edtsp_core.c`, `src/platform/esp32/protocol.h`),
membership registry and leader election (`src/src/leader_election.c`),
and the PC packet-handling glue (`src/platform/pc/edtsp_pc.c`).

Machine integers are modelled as `Nat` with explicit truncation
(`% 2^8`, `% 2^16`, `% 2^32`) where the C code's fixed-width arithmetic
can overflow or wrap.  Buffers and byte arrays are `List Nat`.
-/

-- ============================================================================
-- PROTOCOL CONSTANTS (protocol.h)
-- ============================================================================

def EDTSP_MAGIC : Nat := 0xED61

def EDTSP_VERSION : Nat := 1

def EDTSP_HEARTBEAT_TIMEOUT_MS : Nat := 5000

def EDTSP_MAX_DEVICES : Nat := 256

def EDTSP_TYPE_DISCOVERY : Nat := 1
def EDTSP_TYPE_HEARTBEAT : Nat := 2
def EDTSP_TYPE_HANDSHAKE : Nat := 3
def EDTSP_TYPE_CONFIG : Nat := 4
def EDTSP_TYPE_DATA : Nat := 5

def EDTSP_ROLE_UNKNOWN : Nat := 0
def EDTSP_ROLE_SLAVE : Nat := 1
def EDTSP_ROLE_MASTER : Nat := 2

-- ============================================================================
-- BYTE ORDER CONVERSION (edtsp_core.c)
-- ============================================================================

/-- 16-bit byte swap `(x >> 8) | (x << 8)` on the low 16 bits of `x`;
models `htons`/`ntohs` on a little-endian host. -/
def edtsp_swap16 (x : Nat) : Nat :=
  (x % 2 ^ 16) / 2 ^ 8 + (x % 2 ^ 8) * 2 ^ 8

/-- 32-bit byte swap on the low 32 bits of `x`; models `htonl`/`ntohl`
on a little-endian host. -/
def edtsp_swap32 (x : Nat) : Nat :=
  (x % 2 ^ 32) / 2 ^ 24 + ((x % 2 ^ 24) / 2 ^ 16) * 2 ^ 8 +
    ((x % 2 ^ 16) / 2 ^ 8) * 2 ^ 16 + (x % 2 ^ 8) * 2 ^ 24

-- ============================================================================
-- HEADER (protocol.h / edtsp_core.c)
-- ============================================================================

structure EDTSPHeader where
  magic : Nat
  type : Nat
  source_id : Nat
  payload_len : Nat
deriving DecidableEq, Repr

/-- `edtsp_init_header`: writes magic and source_id in network byte order. -/
def edtsp_init_header (type source_id payload_len : Nat) : EDTSPHeader :=
  { magic := edtsp_swap16 EDTSP_MAGIC
    type := type
    source_id := edtsp_swap32 source_id
    payload_len := payload_len }

/-- `edtsp_header_valid` (protocol.h): magic must equal `EDTSP_MAGIC` and the
type byte must lie in `EDTSP_TYPE_DISCOVERY .. EDTSP_TYPE_DATA`. -/
def edtsp_header_valid (h : EDTSPHeader) : Bool :=
  h.magic == EDTSP_MAGIC &&
    EDTSP_TYPE_DISCOVERY ≤ h.type && h.type ≤ EDTSP_TYPE_DATA

/-- `edtsp_parse_header`: byte-swaps magic and source_id to host order in
place, then validates.  Returns the rewritten header and the Bool result. -/
def edtsp_parse_header (h : EDTSPHeader) : EDTSPHeader × Bool :=
  let h' := { h with magic := edtsp_swap16 h.magic
                     source_id := edtsp_swap32 h.source_id }
  (h', edtsp_header_valid h')

-- ============================================================================
-- PACKET STRUCTURES (protocol.h)
-- ============================================================================

structure EDTSPDiscoveryPacket where
  header : EDTSPHeader
  interface_type : Nat
  version : Nat
  /-- `char device_name[32]` -/
  device_name : List Nat
deriving DecidableEq, Repr

structure EDTSPHeartbeatPacket where
  header : EDTSPHeader
  role : Nat
  uptime_ms : Nat
  active_devices : Nat
deriving DecidableEq, Repr

structure EDTSPHandshakePacket where
  header : EDTSPHeader
  handshake_step : Nat
  target_id : Nat
  capabilities : Nat
  interface_type : Nat
deriving DecidableEq, Repr

structure EDTSPConfigPacket where
  header : EDTSPHeader
  target_id : Nat
  sensor_id : Nat
  sampling_rate_ms : Nat
  enable : Nat
deriving DecidableEq, Repr

structure EDTSPDataPacket where
  header : EDTSPHeader
  sensor_id : Nat
  timestamp_ms : Nat
  data_len : Nat
  /-- `uint8_t data[64]` -/
  data : List Nat
deriving DecidableEq, Repr

-- ============================================================================
-- PACKET BUILDERS (edtsp_core.c)
-- ============================================================================

/-- `strncpy(pkt->device_name, device_name, 31)` into a zero-filled 32-byte
field: copies chars up to the first NUL, at most 31 of them, the rest of the
32 bytes staying zero (memset plus strncpy NUL padding). -/
def strncpy_device_name (device_name : List Nat) : List Nat :=
  let copied := (device_name.takeWhile (fun c => c != 0)).take 31
  copied ++ List.replicate (32 - copied.length) 0

/-- Reading a `char[]` field back as a C string: the bytes before the first
NUL terminator. -/
def read_c_string (l : List Nat) : List Nat :=
  l.takeWhile (fun c => c != 0)

/-- `edtsp_build_discovery`: payload length is
`sizeof(EDTSPDiscoveryPacket) - sizeof(EDTSPHeader) = 34`. -/
def edtsp_build_discovery (source_id iface_type : Nat)
    (device_name : List Nat) : EDTSPDiscoveryPacket :=
  { header := edtsp_init_header EDTSP_TYPE_DISCOVERY source_id 34
    interface_type := iface_type
    version := EDTSP_VERSION
    device_name := strncpy_device_name device_name }

/-- `edtsp_build_heartbeat`: payload length `6`. -/
def edtsp_build_heartbeat (source_id role uptime_ms active_devices : Nat) :
    EDTSPHeartbeatPacket :=
  { header := edtsp_init_header EDTSP_TYPE_HEARTBEAT source_id 6
    role := role
    uptime_ms := edtsp_swap32 uptime_ms
    active_devices := active_devices }

/-- `edtsp_build_handshake`: payload length `8`. -/
def edtsp_build_handshake (source_id step target_id caps iface_type : Nat) :
    EDTSPHandshakePacket :=
  { header := edtsp_init_header EDTSP_TYPE_HANDSHAKE source_id 8
    handshake_step := step
    target_id := edtsp_swap32 target_id
    capabilities := edtsp_swap16 caps
    interface_type := iface_type }

/-- `edtsp_build_config`: payload length `8`. -/
def edtsp_build_config (source_id target_id sensor_id sampling_rate_ms enable : Nat) :
    EDTSPConfigPacket :=
  { header := edtsp_init_header EDTSP_TYPE_CONFIG source_id 8
    target_id := edtsp_swap32 target_id
    sensor_id := sensor_id
    sampling_rate_ms := edtsp_swap16 sampling_rate_ms
    enable := enable }

/-- `edtsp_build_data`: takes the caller's output buffer `pkt`; on
`data == NULL` (modelled as `none`) or `data_len > 64` it returns without
writing anything, leaving the buffer as it was — the source emits no
diagnostic and returns void on that path.  Otherwise it zero-fills the
struct, writes the header (payload length `70`) and copies `data_len`
bytes of sensor data, the rest of the 64-byte array staying zero. -/
def edtsp_build_data (pkt : EDTSPDataPacket) (source_id sensor_id timestamp_ms : Nat)
    (data : Option (List Nat)) (data_len : Nat) : EDTSPDataPacket :=
  match data with
  | none => pkt
  | some d =>
    if data_len > 64 then pkt
    else
      { header := edtsp_init_header EDTSP_TYPE_DATA source_id 70
        sensor_id := sensor_id
        timestamp_ms := edtsp_swap32 timestamp_ms
        data_len := data_len
        data := d.take data_len ++ List.replicate (64 - data_len) 0 }

-- ============================================================================
-- PACKET PAYLOAD DECODERS (edtsp_core.c) — in-place byte swaps
-- ============================================================================

def edtsp_parse_heartbeat (pkt : EDTSPHeartbeatPacket) : EDTSPHeartbeatPacket :=
  { pkt with uptime_ms := edtsp_swap32 pkt.uptime_ms }

def edtsp_parse_handshake (pkt : EDTSPHandshakePacket) : EDTSPHandshakePacket :=
  { pkt with target_id := edtsp_swap32 pkt.target_id
             capabilities := edtsp_swap16 pkt.capabilities }

def edtsp_parse_config (pkt : EDTSPConfigPacket) : EDTSPConfigPacket :=
  { pkt with target_id := edtsp_swap32 pkt.target_id
             sampling_rate_ms := edtsp_swap16 pkt.sampling_rate_ms }

def edtsp_parse_data (pkt : EDTSPDataPacket) : EDTSPDataPacket :=
  { pkt with timestamp_ms := edtsp_swap32 pkt.timestamp_ms }

-- ============================================================================
-- DEVICE TRACKING (leader_election.c)
-- ============================================================================

structure EDTSPDeviceInfo where
  device_id : Nat
  last_heartbeat_ms : Nat
  role : Nat
  active : Bool
deriving DecidableEq, Repr

/-- The election module's static state: `device_list[EDTSP_MAX_DEVICES]`
(a fixed array of 256 slots), the `uint8_t device_count`, `my_device_id`
and `my_role`.  `device_count` is kept as the 8-bit value the C variable
holds, so increments wrap modulo 256. -/
structure ElectionState where
  device_list : List EDTSPDeviceInfo
  device_count : Nat
  my_device_id : Nat
  my_role : Nat
deriving DecidableEq, Repr

/-- `edtsp_election_init`: zeroes the table and the role. -/
def edtsp_election_init (device_id : Nat) : ElectionState :=
  { device_list := List.replicate EDTSP_MAX_DEVICES
      { device_id := 0, last_heartbeat_ms := 0, role := 0, active := false }
    device_count := 0
    my_device_id := device_id
    my_role := EDTSP_ROLE_UNKNOWN }

/-- `find_device_index`: first index `i < device_count` whose slot holds
`device_id`, else none. -/
def find_device_index (st : ElectionState) (device_id : Nat) : Option Nat :=
  (st.device_list.take st.device_count).findIdx? (fun d => d.device_id == device_id)

/-- Which path `edtsp_update_device` took.  The C function returns void;
`registry_full` is the early-return path with the "Device list full"
warning, `inserted` the path with the "New device discovered" message. -/
inductive UpdateOutcome where
  | inserted
  | updated
  | registry_full
deriving DecidableEq, Repr

/-- `edtsp_update_device`.  Note the capacity test compares the 8-bit
`device_count` (always ≤ 255) against `EDTSP_MAX_DEVICES = 256`, exactly
as the C comparison after integer promotion, and the increment wraps
modulo 256 as `uint8_t` arithmetic does. -/
def edtsp_update_device (st : ElectionState) (device_id timestamp_ms role : Nat) :
    ElectionState × UpdateOutcome :=
  match find_device_index st device_id with
  | some idx =>
      ({ st with device_list :=
            (st.device_list.modify
              (fun d => { d with last_heartbeat_ms := timestamp_ms,
                                 role := role, active := true }) idx) },
        UpdateOutcome.updated)
  | none =>
      if EDTSP_MAX_DEVICES ≤ st.device_count then
        (st, UpdateOutcome.registry_full)
      else
        ({ st with
            device_list := st.device_list.set st.device_count
              { device_id := device_id
                last_heartbeat_ms := timestamp_ms
                role := role
                active := true }
            device_count := (st.device_count + 1) % 256 },
          UpdateOutcome.inserted)

-- ============================================================================
-- LEADER ELECTION (leader_election.c)
-- ============================================================================

/-- The loop in `edtsp_perform_election`: highest id among active visible
devices, seeded with `my_device_id`. -/
def compute_highest (st : ElectionState) : Nat :=
  (st.device_list.take st.device_count).foldl
    (fun h d => if d.active && decide (h < d.device_id) then d.device_id else h)
    st.my_device_id

/-- The role `edtsp_perform_election` assigns: Master iff the highest id
equals `my_device_id`. -/
def compute_role (st : ElectionState) : Nat :=
  if compute_highest st == st.my_device_id then EDTSP_ROLE_MASTER
  else EDTSP_ROLE_SLAVE

/-- `edtsp_perform_election`: recomputes and stores the role; the Bool is
the `old_role != my_role` condition guarding the ROLE CHANGE announcement. -/
def edtsp_perform_election (st : ElectionState) : ElectionState × Bool :=
  let new_role := compute_role st
  ({ st with my_role := new_role }, st.my_role != new_role)

-- ============================================================================
-- TIMEOUT SWEEP (leader_election.c)
-- ============================================================================

/-- One iteration of the `edtsp_check_timeouts` loop on a single record:
skip inactive records; flip an active record to inactive when the u64
difference `current_time_ms - last_heartbeat_ms` exceeds the timeout.
The Bool reports whether this record's flag flipped. -/
def sweep_record (current_time_ms : Nat) (d : EDTSPDeviceInfo) :
    EDTSPDeviceInfo × Bool :=
  if d.active then
    let elapsed := (current_time_ms + 2 ^ 64 - d.last_heartbeat_ms % 2 ^ 64) % 2 ^ 64
    if EDTSP_HEARTBEAT_TIMEOUT_MS < elapsed then
      ({ d with active := false }, true)
    else (d, false)
  else (d, false)

/-- The registry after the sweep loop (slots beyond `device_count` are not
visited). -/
def sweep_registry (st : ElectionState) (current_time_ms : Nat) : ElectionState :=
  { st with device_list :=
      ((st.device_list.take st.device_count).map
          (fun d => (sweep_record current_time_ms d).1)
        ++ st.device_list.drop st.device_count) }

/-- The sweep loop's `topology_changed` flag. -/
def sweep_changed (st : ElectionState) (current_time_ms : Nat) : Bool :=
  (st.device_list.take st.device_count).any
    (fun d => (sweep_record current_time_ms d).2)

/-- `edtsp_check_timeouts`: sweeps, and re-runs the election exactly when
some active flag flipped.  The Bool is `topology_changed`, i.e. whether
the election was re-triggered. -/
def edtsp_check_timeouts (st : ElectionState) (current_time_ms : Nat) :
    ElectionState × Bool :=
  let st1 := sweep_registry st current_time_ms
  if sweep_changed st current_time_ms then
    ((edtsp_perform_election st1).1, true)
  else (st1, false)

/-- `edtsp_get_active_device_count`: a `uint8_t` counter starting at 1
(self), incremented for every visible active record; u8 increments wrap
modulo 256. -/
def edtsp_get_active_device_count (st : ElectionState) : Nat :=
  (st.device_list.take st.device_count).foldl
    (fun c d => if d.active then (c + 1) % 256 else c) 1

-- ============================================================================
-- PC PACKET HANDLERS (edtsp_pc.c)
-- ============================================================================

/-- `handle_discovery`: observe the sender with role Unknown, then run the
election — unconditionally. -/
def handle_discovery (st : ElectionState) (now : Nat)
    (pkt : EDTSPDiscoveryPacket) : ElectionState :=
  (edtsp_perform_election
    (edtsp_update_device st pkt.header.source_id now EDTSP_ROLE_UNKNOWN).1).1

/-- `handle_heartbeat`: decode the payload, observe the sender with its
announced role, then run the election — unconditionally. -/
def handle_heartbeat (st : ElectionState) (now : Nat)
    (pkt : EDTSPHeartbeatPacket) : ElectionState :=
  let pkt' := edtsp_parse_heartbeat pkt
  (edtsp_perform_election
    (edtsp_update_device st pkt'.header.source_id now pkt'.role).1).1

/-- The two inbound packet shapes `receive_packets` dispatches to a
handler. -/
inductive InboundPacket where
  | discovery (pkt : EDTSPDiscoveryPacket)
  | heartbeat (pkt : EDTSPHeartbeatPacket)
deriving DecidableEq, Repr

/-- The core-relevant part of `receive_packets`: parse and validate the
header; on failure or on an own-source packet drop the datagram without
touching the election state, otherwise dispatch to the handler with the
host-order header in place. -/
def receive_packet (st : ElectionState) (now : Nat) (p : InboundPacket) :
    ElectionState :=
  match p with
  | InboundPacket.discovery pkt =>
      let parsed := edtsp_parse_header pkt.header
      if !parsed.2 then st
      else if parsed.1.source_id == st.my_device_id then st
      else handle_discovery st now { pkt with header := parsed.1 }
  | InboundPacket.heartbeat pkt =>
      let parsed := edtsp_parse_header pkt.header
      if !parsed.2 then st
      else if parsed.1.source_id == st.my_device_id then st
      else handle_heartbeat st now { pkt with header := parsed.1 }

-- ============================================================================
-- SPECIFICATION-SIDE VIEWS
-- ============================================================================

/-- The registry's visible active identifiers (the set `S` of the spec's
election property). -/
def active_ids (st : ElectionState) : List Nat :=
  ((st.device_list.take st.device_count).filter (fun d => d.active)).map
    (fun d => d.device_id)

/-- `max (S ∪ \x7bs\x7d)` as the spec words it. -/
def spec_max (st : ElectionState) : Nat :=
  (active_ids st).foldl Nat.max st.my_device_id

/-- Number of visible records whose active flag is true. -/
def count_active_records (st : ElectionState) : Nat :=
  ((st.device_list.take st.device_count).filter (fun d => d.active)).length

/-- The header of an inbound datagram before byte-order conversion. -/
def inbound_header (p : InboundPacket) : EDTSPHeader :=
  match p with
  | InboundPacket.discovery pkt => pkt.header
  | InboundPacket.heartbeat pkt => pkt.header

-- ============================================================================
-- CONCRETE EXECUTIONS
-- ============================================================================

/-- A zeroed table slot, as `edtsp_election_init`'s memset leaves it. -/
def c2_zero_record : EDTSPDeviceInfo :=
  { device_id := 0, last_heartbeat_ms := 0, role := 0, active := false }

/-- The record the registry holds for the `i`-th observed device
(id `100 + i`, observed at time 0 announcing role Slave). -/
def c2_device_record (i : Nat) : EDTSPDeviceInfo :=
  { device_id := 100 + i, last_heartbeat_ms := 0, role := EDTSP_ROLE_SLAVE,
    active := true }

/-- The fully occupied device table: slots 0..255 hold ids 100..355. -/
def c2_full_list : List EDTSPDeviceInfo :=
  (List.range 256).map c2_device_record

/-- The registry after a fresh start (self id 50) observes 256 distinct
devices with ids 100..355: every slot of the table is occupied and the
8-bit `device_count` has wrapped around to 0. -/
def c2_full_state : ElectionState :=
  (List.range 256).foldl
    (fun st i => (edtsp_update_device st (100 + i) 0 EDTSP_ROLE_SLAVE).1)
    (edtsp_election_init 50)

/-- The same full registry after one election: with the wrapped counter the
loop sees no peers, so self (id 50) holds role Master. -/
def c3_master_state : ElectionState := (edtsp_perform_election c2_full_state).1

/-- A heartbeat from a device id (999) not present in the registry, with
its header already in host byte order as the dispatch loop hands it to
the handler. -/
def c3_unknown_heartbeat : EDTSPHeartbeatPacket :=
  { header := { magic := EDTSP_MAGIC, type := EDTSP_TYPE_HEARTBEAT,
                source_id := 999, payload_len := 6 },
    role := EDTSP_ROLE_SLAVE, uptime_ms := 0, active_devices := 1 }

/-- An arbitrary pre-existing output buffer for the Data builder. -/
def c9_buffer : EDTSPDataPacket :=
  { header := { magic := 11, type := 12, source_id := 13, payload_len := 14 },
    sensor_id := 9, timestamp_ms := 8, data_len := 7, data := [6, 5, 4] }

-- ============================================================================
-- HELPER LEMMAS
-- ============================================================================

theorem edtsp_swap16_involution {x : Nat} (h : x < 2 ^ 16) :
    edtsp_swap16 (edtsp_swap16 x) = x := by
  have e1 : ∀ y, edtsp_swap16 y = y % 65536 / 256 + y % 256 * 256 := fun y => rfl
  rw [e1, e1]
  have h16 : x % 65536 = x := Nat.mod_eq_of_lt h
  rw [h16]
  have hB : x / 256 < 256 := by omega
  have hA : x % 256 < 256 := by omega
  have hs : (x / 256 + x % 256 * 256) % 65536 = x / 256 + x % 256 * 256 := by omega
  have hq : (x / 256 + x % 256 * 256) / 256 = x % 256 := by omega
  have hr : (x / 256 + x % 256 * 256) % 256 = x / 256 := by omega
  rw [hs, hq, hr]
  omega

theorem edtsp_swap32_involution {x : Nat} (h : x < 2 ^ 32) :
    edtsp_swap32 (edtsp_swap32 x) = x := by
  have e1 : ∀ y, edtsp_swap32 y
      = y % 4294967296 / 16777216 + y % 16777216 / 65536 * 256
        + y % 65536 / 256 * 65536 + y % 256 * 16777216 := fun y => rfl
  rw [e1, e1]
  have h32 : x % 4294967296 = x := Nat.mod_eq_of_lt h
  rw [h32]
  have hA : x / 16777216 < 256 := by omega
  have hBm : x % 16777216 = x % 16777216 / 65536 * 65536 + x % 65536 := by
    have hdvd : x % 16777216 % 65536 = x % 65536 :=
      Nat.mod_mod_of_dvd x (by norm_num)
    omega
  have hB : x % 16777216 / 65536 < 256 := by omega
  have hCm : x % 65536 = x % 65536 / 256 * 256 + x % 256 := by
    have hdvd : x % 65536 % 256 = x % 256 := Nat.mod_mod_of_dvd x (by norm_num)
    omega
  have hC : x % 65536 / 256 < 256 := by omega
  have hD : x % 256 < 256 := by omega
  generalize hA' : x / 16777216 = A at *
  generalize hB' : x % 16777216 / 65536 = B at *
  generalize hC' : x % 65536 / 256 = C at *
  generalize hD' : x % 256 = D at *
  have hs : (A + B * 256 + C * 65536 + D * 16777216) % 4294967296
      = A + B * 256 + C * 65536 + D * 16777216 := by omega
  have h1 : (A + B * 256 + C * 65536 + D * 16777216) / 16777216 = D := by omega
  have h2 : (A + B * 256 + C * 65536 + D * 16777216) % 16777216
      = A + B * 256 + C * 65536 := by omega
  have h3 : (A + B * 256 + C * 65536) / 65536 = C := by omega
  have h4 : (A + B * 256 + C * 65536 + D * 16777216) % 65536 = A + B * 256 := by
    have : (A + B * 256 + C * 65536 + D * 16777216) % 65536
        = (A + B * 256) % 65536 := by omega
    omega
  have h5 : (A + B * 256) / 256 = B := by omega
  have h6 : (A + B * 256 + C * 65536 + D * 16777216) % 256 = A := by
    have : (A + B * 256 + C * 65536 + D * 16777216) % 256 = A % 256 := by omega
    omega
  rw [hs, h1, h2, h3, h4, h5, h6]
  omega

/-- The election loop computes the same value as folding `Nat.max` over the
active identifiers. -/
theorem election_fold_eq_max (l : List EDTSPDeviceInfo) (a : Nat) :
    l.foldl (fun h d => if d.active && decide (h < d.device_id) then d.device_id else h) a
      = ((l.filter (fun d => d.active)).map (fun d => d.device_id)).foldl Nat.max a := by
  induction l generalizing a with
  | nil => rfl
  | cons d l ih =>
    rw [List.foldl_cons, List.filter_cons]
    by_cases hd : d.active = true
    · rw [if_pos hd, List.map_cons, List.foldl_cons, ih]
      congr 1
      rw [hd, Bool.true_and]
      split
      · rename_i h'
        simp only [decide_eq_true_eq] at h'
        exact (Nat.max_eq_right (Nat.le_of_lt h')).symm
      · rename_i h'
        simp only [decide_eq_true_eq] at h'
        exact (Nat.max_eq_left (Nat.le_of_not_lt h')).symm
    · have hb : d.active = false := by simpa using hd
      have hstep : (if d.active && decide (a < d.device_id) then d.device_id else a) = a := by
        simp [hb]
      rw [hstep, if_neg (by simp [hb]), ih]

theorem compute_highest_eq_spec_max (st : ElectionState) :
    compute_highest st = spec_max st := by
  unfold compute_highest spec_max active_ids
  exact election_fold_eq_max _ _

theorem compute_highest_my_role (st : ElectionState) (r : Nat) :
    compute_highest { st with my_role := r } = compute_highest st := rfl

theorem compute_role_my_role (st : ElectionState) (r : Nat) :
    compute_role { st with my_role := r } = compute_role st := rfl

-- ============================================================================
-- CLAIM THEOREMS
-- ============================================================================

/-- C1: for every registry state and self identifier, the election sets the
local role to Master iff the self id equals the maximum of the active
identifiers together with the self id, and to Slave otherwise; with no
active peers the role is Master. -/
theorem c1_election_master_iff_max (st : ElectionState) :
    ((edtsp_perform_election st).1.my_role = EDTSP_ROLE_MASTER ↔
      spec_max st = st.my_device_id) ∧
    ((edtsp_perform_election st).1.my_role = EDTSP_ROLE_SLAVE ↔
      ¬spec_max st = st.my_device_id) ∧
    (active_ids st = [] →
      (edtsp_perform_election st).1.my_role = EDTSP_ROLE_MASTER) := by
  have hrole : (edtsp_perform_election st).1.my_role = compute_role st := rfl
  have hcr : compute_role st
      = if spec_max st = st.my_device_id then EDTSP_ROLE_MASTER
        else EDTSP_ROLE_SLAVE := by
    simp only [compute_role, compute_highest_eq_spec_max, beq_iff_eq]
  rw [hrole, hcr]
  refine ⟨?_, ?_, ?_⟩
  · by_cases h : spec_max st = st.my_device_id
    · simp [h]
    · simp [h, EDTSP_ROLE_MASTER, EDTSP_ROLE_SLAVE]
  · by_cases h : spec_max st = st.my_device_id
    · simp [h, EDTSP_ROLE_MASTER, EDTSP_ROLE_SLAVE]
    · simp [h]
  · intro h0
    have hsm : spec_max st = st.my_device_id := by
      unfold spec_max
      rw [h0]
      rfl
    simp [hsm]

/-- Witness for C1 at concrete inputs: a fresh registry (no active peers)
elects self Master; after observing a larger peer id the role is Slave. -/
theorem c1_election_master_iff_max_witness :
    active_ids (edtsp_election_init 5) = [] ∧
    (edtsp_perform_election (edtsp_election_init 5)).1.my_role = EDTSP_ROLE_MASTER ∧
    (edtsp_perform_election
      (edtsp_update_device (edtsp_election_init 5) 10 0 1).1).1.my_role
        = EDTSP_ROLE_SLAVE :=
  ⟨by decide,
   (c1_election_master_iff_max (edtsp_election_init 5)).2.2 (by decide),
   (c1_election_master_iff_max
     (edtsp_update_device (edtsp_election_init 5) 10 0 1).1).2.1.mpr (by decide)⟩

/-- C5: header decoding succeeds exactly when the byte-swapped magic equals
`0xED61` and the kind byte lies in `1..5`; on failure the receive path
drops the packet without touching the election state (no payload is
interpreted). -/
theorem c5_header_rejection (h : EDTSPHeader) (st : ElectionState) (now : Nat) :
    ((edtsp_parse_header h).2 = true ↔
      (edtsp_swap16 h.magic = EDTSP_MAGIC ∧
        EDTSP_TYPE_DISCOVERY ≤ h.type ∧ h.type ≤ EDTSP_TYPE_DATA)) ∧
    (∀ p : InboundPacket, (edtsp_parse_header (inbound_header p)).2 = false →
      receive_packet st now p = st) := by
  constructor
  · simp only [edtsp_parse_header, edtsp_header_valid, Bool.and_eq_true, beq_iff_eq,
      decide_eq_true_eq, and_assoc]
  · intro p hp
    cases p with
    | discovery pkt =>
      simp only [receive_packet, inbound_header] at hp ⊢
      rw [hp]
      rfl
    | heartbeat pkt =>
      simp only [receive_packet, inbound_header] at hp ⊢
      rw [hp]
      rfl

/-- Witness for C5: a header with wrong magic and out-of-range kind is
rejected and the receive path leaves the state untouched; a well-formed
header is accepted. -/
theorem c5_header_rejection_witness :
    receive_packet (edtsp_election_init 3) 0
      (InboundPacket.heartbeat
        { header := { magic := 0, type := 9, source_id := 0, payload_len := 6 },
          role := 1, uptime_ms := 0, active_devices := 0 })
      = edtsp_election_init 3 ∧
    (edtsp_parse_header
      { magic := edtsp_swap16 EDTSP_MAGIC, type := EDTSP_TYPE_HEARTBEAT,
        source_id := 0, payload_len := 6 }).2 = true :=
  ⟨(c5_header_rejection
      { magic := 0, type := 9, source_id := 0, payload_len := 6 }
      (edtsp_election_init 3) 0).2 _ (by decide),
   (c5_header_rejection
      { magic := edtsp_swap16 EDTSP_MAGIC, type := EDTSP_TYPE_HEARTBEAT,
        source_id := 0, payload_len := 6 }
      (edtsp_election_init 3) 0).1.mpr (by decide)⟩

/-- C8: an observation of a device already present in the registry rewrites
that record's timestamp, role and active flag (reactivation is
unconditional), keeps the count and table size, and touches no other
slot. -/
theorem c8_known_device_update (st : ElectionState) (id t r i : Nat)
    (hfind : find_device_index st id = some i) :
    (edtsp_update_device st id t r).2 = UpdateOutcome.updated ∧
    (edtsp_update_device st id t r).1.device_count = st.device_count ∧
    (edtsp_update_device st id t r).1.device_list.length = st.device_list.length ∧
    ((edtsp_update_device st id t r).1.device_list[i]? =
      (fun d => { d with last_heartbeat_ms := t, role := r, active := true }) <$>
        st.device_list[i]?) ∧
    (∀ j, j ≠ i →
      (edtsp_update_device st id t r).1.device_list[j]? = st.device_list[j]?) := by
  unfold edtsp_update_device
  rw [hfind]
  refine ⟨rfl, rfl, by simp, by simp, ?_⟩
  intro j hj
  simp [List.getElem?_modify_ne _ _ (Ne.symm hj)]

/-- Witness for C8: a timed-out (inactive) record is reactivated in place
with the new timestamp and role. -/
theorem c8_known_device_update_witness :
    find_device_index
      { device_list := [{ device_id := 77, last_heartbeat_ms := 100, role := 1,
                          active := false }],
        device_count := 1, my_device_id := 5, my_role := 1 } 77 = some 0 ∧
    (edtsp_update_device
      { device_list := [{ device_id := 77, last_heartbeat_ms := 100, role := 1,
                          active := false }],
        device_count := 1, my_device_id := 5, my_role := 1 } 77 6000 2).2
      = UpdateOutcome.updated ∧
    (edtsp_update_device
      { device_list := [{ device_id := 77, last_heartbeat_ms := 100, role := 1,
                          active := false }],
        device_count := 1, my_device_id := 5, my_role := 1 } 77 6000 2).1.device_list[0]?
      = some { device_id := 77, last_heartbeat_ms := 6000, role := 2, active := true } :=
  ⟨by decide,
   (c8_known_device_update _ 77 6000 2 0 (by decide)).1,
   by
     have h4 := (c8_known_device_update
       { device_list := [{ device_id := 77, last_heartbeat_ms := 100, role := 1,
                           active := false }],
         device_count := 1, my_device_id := 5, my_role := 1 } 77 6000 2 0
       (by decide)).2.2.2.1
     rw [h4]
     rfl⟩

/-- The active-device counting loop computes `(a + number of active) % 256`
for a `uint8_t` accumulator starting at `a < 256`. -/
theorem count_fold_eq (l : List EDTSPDeviceInfo) (a : Nat) (h : a < 256) :
    l.foldl (fun c d => if d.active then (c + 1) % 256 else c) a
      = (a + (l.filter (fun d => d.active)).length) % 256 := by
  induction l generalizing a with
  | nil => simp [Nat.mod_eq_of_lt h]
  | cons d l ih =>
    rw [List.foldl_cons, List.filter_cons]
    by_cases hd : d.active = true
    · rw [if_pos hd, if_pos hd, List.length_cons,
        ih ((a + 1) % 256) (Nat.mod_lt _ (by norm_num))]
      omega
    · have hb : d.active = false := by simpa using hd
      rw [if_neg (by simp [hb]), if_neg (by simp [hb]), ih a h]

/-- C10: the heartbeat self-report counts one (self) plus the visible
active records, as an 8-bit value, hence modulo 256; with exactly 255
active records it reports 0. -/
theorem c10_active_device_count (st : ElectionState) :
    edtsp_get_active_device_count st = (1 + count_active_records st) % 256 ∧
    (count_active_records st = 255 → edtsp_get_active_device_count st = 0) := by
  have h := count_fold_eq (st.device_list.take st.device_count) 1 (by norm_num)
  refine ⟨h, ?_⟩
  intro h255
  calc edtsp_get_active_device_count st
      = (1 + count_active_records st) % 256 := h
    _ = 0 := by rw [h255]

set_option maxRecDepth 4000 in
/-- Witness for C10: with 255 active records the 8-bit count wraps to 0. -/
theorem c10_active_device_count_witness :
    count_active_records
      { device_list := List.replicate 255
          { device_id := 1, last_heartbeat_ms := 0, role := 1, active := true }
          ++ [{ device_id := 2, last_heartbeat_ms := 0, role := 1, active := false }],
        device_count := 255, my_device_id := 9, my_role := 2 } = 255 ∧
    edtsp_get_active_device_count
      { device_list := List.replicate 255
          { device_id := 1, last_heartbeat_ms := 0, role := 1, active := true }
          ++ [{ device_id := 2, last_heartbeat_ms := 0, role := 1, active := false }],
        device_count := 255, my_device_id := 9, my_role := 2 } = 0 :=
  ⟨by decide, (c10_active_device_count _).2 (by decide)⟩

theorem takeWhile_all_ne_zero (l : List Nat) (h : ∀ c ∈ l, c ≠ 0) :
    l.takeWhile (fun c => c != 0) = l := by
  induction l with
  | nil => rfl
  | cons a l ih =>
    have ha : (a != 0) = true := by
      simpa using h a (List.mem_cons_self a l)
    simp [List.takeWhile_cons, ha,
      ih (fun c hc => h c (List.mem_cons_of_mem _ hc))]

theorem takeWhile_append_zero (l rest : List Nat) (h : ∀ c ∈ l, c ≠ 0) :
    (l ++ 0 :: rest).takeWhile (fun c => c != 0) = l := by
  induction l with
  | nil => simp [List.takeWhile_cons]
  | cons a l ih =>
    have ha : (a != 0) = true := by
      simpa using h a (List.mem_cons_self a l)
    simp [List.takeWhile_cons, ha,
      ih (fun c hc => h c (List.mem_cons_of_mem _ hc))]

/-- A NUL-free name of at most 31 bytes is recovered exactly from the
zero-padded 32-byte field. -/
theorem read_strncpy_device_name (name : List Nat) (hlen : name.length ≤ 31)
    (hnz : ∀ c ∈ name, c ≠ 0) :
    read_c_string (strncpy_device_name name) = name := by
  unfold read_c_string strncpy_device_name
  rw [takeWhile_all_ne_zero name hnz, List.take_of_length_le hlen]
  show (name ++ List.replicate (32 - name.length) 0).takeWhile (fun c => c != 0)
      = name
  have h2 : 32 - name.length = (31 - name.length) + 1 := by omega
  rw [h2, List.replicate_succ]
  exact takeWhile_append_zero name _ hnz

/-- Header encode/decode round-trip for any in-range source id and valid
kind, at every payload length. -/
theorem parse_init_header (t sid pl : Nat) (hsid : sid < 2 ^ 32)
    (ht1 : EDTSP_TYPE_DISCOVERY ≤ t) (ht5 : t ≤ EDTSP_TYPE_DATA) :
    edtsp_parse_header (edtsp_init_header t sid pl)
      = ({ magic := EDTSP_MAGIC, type := t, source_id := sid,
           payload_len := pl }, true) := by
  have hm : edtsp_swap16 (edtsp_swap16 EDTSP_MAGIC) = EDTSP_MAGIC := by decide
  have hs : edtsp_swap32 (edtsp_swap32 sid) = sid := edtsp_swap32_involution hsid
  simp only [edtsp_parse_header, edtsp_init_header, edtsp_header_valid, hm, hs]
  simp [ht1, ht5]

/-- C4: for every packet kind, decoding an encoded packet returns the
original in-range field values: the parsed header recovers magic, kind,
source id and payload length (any payload length, so also 255); the
payload decoders recover every multi-byte field; the device name is read
back exactly for NUL-free names of at most 31 bytes; the sensor data
bytes are read back exactly for `data_len ≤ 64`. -/
theorem c4_round_trip
    (sid iface p_len t role uptime adc step tgt caps sensor rate en ts dlen : Nat)
    (name d : List Nat) (pkt0 : EDTSPDataPacket)
    (hsid : sid < 2 ^ 32)
    (ht1 : EDTSP_TYPE_DISCOVERY ≤ t) (ht5 : t ≤ EDTSP_TYPE_DATA)
    (hname_len : name.length ≤ 31) (hname_nz : ∀ c ∈ name, c ≠ 0)
    (huptime : uptime < 2 ^ 32) (htgt : tgt < 2 ^ 32) (hcaps : caps < 2 ^ 16)
    (hrate : rate < 2 ^ 16) (hts : ts < 2 ^ 32)
    (hd : d.length = dlen) (hdlen : dlen ≤ 64) :
    edtsp_parse_header (edtsp_init_header t sid p_len)
      = ({ magic := EDTSP_MAGIC, type := t, source_id := sid,
           payload_len := p_len }, true) ∧
    edtsp_parse_header (edtsp_build_discovery sid iface name).header
      = ({ magic := EDTSP_MAGIC, type := EDTSP_TYPE_DISCOVERY, source_id := sid,
           payload_len := 34 }, true) ∧
    (edtsp_build_discovery sid iface name).interface_type = iface ∧
    (edtsp_build_discovery sid iface name).version = EDTSP_VERSION ∧
    read_c_string (edtsp_build_discovery sid iface name).device_name = name ∧
    edtsp_parse_heartbeat (edtsp_build_heartbeat sid role uptime adc)
      = { header := (edtsp_build_heartbeat sid role uptime adc).header,
          role := role, uptime_ms := uptime, active_devices := adc } ∧
    edtsp_parse_header (edtsp_build_heartbeat sid role uptime adc).header
      = ({ magic := EDTSP_MAGIC, type := EDTSP_TYPE_HEARTBEAT, source_id := sid,
           payload_len := 6 }, true) ∧
    edtsp_parse_handshake (edtsp_build_handshake sid step tgt caps iface)
      = { header := (edtsp_build_handshake sid step tgt caps iface).header,
          handshake_step := step, target_id := tgt, capabilities := caps,
          interface_type := iface } ∧
    edtsp_parse_header (edtsp_build_handshake sid step tgt caps iface).header
      = ({ magic := EDTSP_MAGIC, type := EDTSP_TYPE_HANDSHAKE, source_id := sid,
           payload_len := 8 }, true) ∧
    edtsp_parse_config (edtsp_build_config sid tgt sensor rate en)
      = { header := (edtsp_build_config sid tgt sensor rate en).header,
          target_id := tgt, sensor_id := sensor, sampling_rate_ms := rate,
          enable := en } ∧
    edtsp_parse_header (edtsp_build_config sid tgt sensor rate en).header
      = ({ magic := EDTSP_MAGIC, type := EDTSP_TYPE_CONFIG, source_id := sid,
           payload_len := 8 }, true) ∧
    edtsp_parse_data (edtsp_build_data pkt0 sid sensor ts (some d) dlen)
      = { header := (edtsp_build_data pkt0 sid sensor ts (some d) dlen).header,
          sensor_id := sensor, timestamp_ms := ts, data_len := dlen,
          data := (edtsp_build_data pkt0 sid sensor ts (some d) dlen).data } ∧
    (edtsp_build_data pkt0 sid sensor ts (some d) dlen).data.take dlen = d ∧
    edtsp_parse_header (edtsp_build_data pkt0 sid sensor ts (some d) dlen).header
      = ({ magic := EDTSP_MAGIC, type := EDTSP_TYPE_DATA, source_id := sid,
           payload_len := 70 }, true) := by
  have hbd : edtsp_build_data pkt0 sid sensor ts (some d) dlen
      = { header := edtsp_init_header EDTSP_TYPE_DATA sid 70,
          sensor_id := sensor, timestamp_ms := edtsp_swap32 ts, data_len := dlen,
          data := d.take dlen ++ List.replicate (64 - dlen) 0 } := by
    simp only [edtsp_build_data]
    rw [if_neg (by omega)]
  refine ⟨parse_init_header t sid p_len hsid ht1 ht5,
    parse_init_header _ sid 34 hsid (by decide) (by decide),
    rfl, rfl,
    read_strncpy_device_name name hname_len hname_nz,
    ?_,
    parse_init_header _ sid 6 hsid (by decide) (by decide),
    ?_,
    parse_init_header _ sid 8 hsid (by decide) (by decide),
    ?_,
    parse_init_header _ sid 8 hsid (by decide) (by decide),
    ?_, ?_, ?_⟩
  · simp [edtsp_parse_heartbeat, edtsp_build_heartbeat, edtsp_swap32_involution huptime]
  · simp [edtsp_parse_handshake, edtsp_build_handshake,
      edtsp_swap32_involution htgt, edtsp_swap16_involution hcaps]
  · simp [edtsp_parse_config, edtsp_build_config,
      edtsp_swap32_involution htgt, edtsp_swap16_involution hrate]
  · rw [hbd]
    simp [edtsp_parse_data, edtsp_swap32_involution hts]
  · rw [hbd]
    show (d.take dlen ++ List.replicate (64 - dlen) 0).take dlen = d
    have hlen' : (d.take dlen).length = dlen := by
      simp [List.length_take, hd]
    rw [List.take_left' hlen', ← hd, List.take_length]
  · rw [hbd]
    exact parse_init_header _ sid 70 hsid (by decide) (by decide)

/-- Witness for C4 at boundary values: a 31-byte NUL-free name, sensor
data of 64 and of 0 bytes, source id `0xDEADBEEF`, and a header-only
packet with payload length 255, all round-trip. -/
theorem c4_round_trip_witness :
    read_c_string
      (edtsp_build_discovery 3735928559 1 (List.replicate 31 65)).device_name
      = List.replicate 31 65 ∧
    (edtsp_build_data
      { header := { magic := 0, type := 0, source_id := 0, payload_len := 0 },
        sensor_id := 0, timestamp_ms := 0, data_len := 0, data := [] }
      3735928559 3 4294967295 (some (List.replicate 64 7)) 64).data.take 64
      = List.replicate 64 7 ∧
    (edtsp_build_data
      { header := { magic := 0, type := 0, source_id := 0, payload_len := 0 },
        sensor_id := 0, timestamp_ms := 0, data_len := 0, data := [] }
      3735928559 3 0 (some []) 0).data.take 0 = [] ∧
    edtsp_parse_header (edtsp_init_header 2 3735928559 255)
      = ({ magic := EDTSP_MAGIC, type := 2, source_id := 3735928559,
           payload_len := 255 }, true) :=
  ⟨(c4_round_trip 3735928559 1 255 2 2 4294967295 3 1 5 65535 3 1000 1 4294967295 64
      (List.replicate 31 65) (List.replicate 64 7)
      { header := { magic := 0, type := 0, source_id := 0, payload_len := 0 },
        sensor_id := 0, timestamp_ms := 0, data_len := 0, data := [] }
      (by decide) (by decide) (by decide) (by decide) (by decide) (by decide)
      (by decide) (by decide) (by decide) (by decide) (by decide)
      (by decide)).2.2.2.2.1,
   (c4_round_trip 3735928559 1 255 2 2 4294967295 3 1 5 65535 3 1000 1 4294967295 64
      (List.replicate 31 65) (List.replicate 64 7)
      { header := { magic := 0, type := 0, source_id := 0, payload_len := 0 },
        sensor_id := 0, timestamp_ms := 0, data_len := 0, data := [] }
      (by decide) (by decide) (by decide) (by decide) (by decide) (by decide)
      (by decide) (by decide) (by decide) (by decide) (by decide)
      (by decide)).2.2.2.2.2.2.2.2.2.2.2.2.1,
   (c4_round_trip 3735928559 1 255 2 2 4294967295 3 1 5 65535 3 1000 1 0 0
      (List.replicate 31 65) []
      { header := { magic := 0, type := 0, source_id := 0, payload_len := 0 },
        sensor_id := 0, timestamp_ms := 0, data_len := 0, data := [] }
      (by decide) (by decide) (by decide) (by decide) (by decide) (by decide)
      (by decide) (by decide) (by decide) (by decide) (by decide)
      (by decide)).2.2.2.2.2.2.2.2.2.2.2.2.1,
   (c4_round_trip 3735928559 1 255 2 2 4294967295 3 1 5 65535 3 1000 1 4294967295 64
      (List.replicate 31 65) (List.replicate 64 7)
      { header := { magic := 0, type := 0, source_id := 0, payload_len := 0 },
        sensor_id := 0, timestamp_ms := 0, data_len := 0, data := [] }
      (by decide) (by decide) (by decide) (by decide) (by decide) (by decide)
      (by decide) (by decide) (by decide) (by decide) (by decide)
      (by decide)).1⟩

/-- A record that survived one sweep (or was flipped by it) is left alone,
with no flip reported, by a second sweep at the same time. -/
theorem sweep_record_idem (now : Nat) (d : EDTSPDeviceInfo) :
    sweep_record now (sweep_record now d).1 = ((sweep_record now d).1, false) := by
  by_cases hd : d.active = true
  · by_cases he : EDTSP_HEARTBEAT_TIMEOUT_MS
        < (now + 2 ^ 64 - d.last_heartbeat_ms % 2 ^ 64) % 2 ^ 64
    · have h1 : sweep_record now d = ({ d with active := false }, true) := by
        simp only [sweep_record]
        rw [if_pos hd, if_pos he]
      rw [h1]
      simp [sweep_record]
    · have h1 : sweep_record now d = (d, false) := by
        simp only [sweep_record]
        rw [if_pos hd, if_neg he]
      rw [h1]
      simp only [sweep_record]
      rw [if_pos hd, if_neg he]
  · have hb : d.active = false := by simpa using hd
    have h1 : sweep_record now d = (d, false) := by
      simp [sweep_record, hb]
    rw [h1]
    exact h1

theorem take_map_sweep_append (l : List EDTSPDeviceInfo) (c now : Nat) :
    ((l.take c).map (fun d => (sweep_record now d).1) ++ l.drop c).take c
      = (l.take c).map (fun d => (sweep_record now d).1) ∧
    ((l.take c).map (fun d => (sweep_record now d).1) ++ l.drop c).drop c
      = l.drop c := by
  rcases le_or_lt c l.length with h | h
  · have hlen : ((l.take c).map (fun d => (sweep_record now d).1)).length = c := by
      simp [List.length_take, Nat.min_eq_left h]
    exact ⟨List.take_left' hlen, List.drop_left' hlen⟩
  · have hdrop : l.drop c = [] := List.drop_eq_nil_of_le (Nat.le_of_lt h)
    have htake : l.take c = l := List.take_of_length_le (Nat.le_of_lt h)
    constructor
    · rw [hdrop, List.append_nil, htake]
      exact List.take_of_length_le (by simpa using Nat.le_of_lt h)
    · rw [hdrop, List.append_nil, htake]
      exact List.drop_eq_nil_of_le (by simpa using Nat.le_of_lt h)

/-- Any state whose visible slots are the image of one sweep at `now` is a
fixed point of `edtsp_check_timeouts` at `now`: no flag flips, no election
is triggered, nothing changes. -/
theorem check_timeouts_fixpoint (Y : ElectionState) (now : Nat)
    (l : List EDTSPDeviceInfo) (c : Nat)
    (hc : Y.device_count = c)
    (hl : Y.device_list
      = (l.take c).map (fun d => (sweep_record now d).1) ++ l.drop c) :
    edtsp_check_timeouts Y now = (Y, false) := by
  obtain ⟨htake, hdrop⟩ := take_map_sweep_append l c now
  have hvis : Y.device_list.take Y.device_count
      = (l.take c).map (fun d => (sweep_record now d).1) := by
    rw [hl, hc, htake]
  have hdr : Y.device_list.drop Y.device_count = l.drop c := by
    rw [hl, hc, hdrop]
  have hch : sweep_changed Y now = false := by
    unfold sweep_changed
    rw [hvis, List.any_map]
    refine List.any_eq_false.mpr ?_
    intro x _
    simp only [Function.comp_apply]
    rw [sweep_record_idem now x]
    simp
  have hreg : sweep_registry Y now = Y := by
    have hli : (Y.device_list.take Y.device_count).map
          (fun d => (sweep_record now d).1)
        ++ Y.device_list.drop Y.device_count = Y.device_list := by
      rw [hvis, hdr, List.map_map, hl]
      congr 1
      refine List.map_congr_left ?_
      intro d _
      simp only [Function.comp_apply]
      rw [sweep_record_idem now d]
    show ({ Y with device_list := _ } : ElectionState) = Y
    rw [hli]
  unfold edtsp_check_timeouts
  rw [hch]
  simp [hreg]

/-- C7: the timeout sweep is idempotent at a fixed time: after one call,
every further call with the same `now_ms` reports `changed = false`,
leaves every record untouched, and does not re-trigger the election. -/
theorem c7_sweep_idempotent (st : ElectionState) (now : Nat) :
    edtsp_check_timeouts (edtsp_check_timeouts st now).1 now
      = ((edtsp_check_timeouts st now).1, false) := by
  apply check_timeouts_fixpoint _ now st.device_list st.device_count
  · unfold edtsp_check_timeouts
    by_cases hch : sweep_changed st now
    · simp [hch, edtsp_perform_election, sweep_registry]
    · simp [hch, sweep_registry]
  · unfold edtsp_check_timeouts
    by_cases hch : sweep_changed st now
    · simp [hch, edtsp_perform_election, sweep_registry]
    · simp [hch, sweep_registry]

/-- C6: the election reports a role transition exactly when the newly
computed role differs from the stored one, overwrites the stored role
with the computed one, changes nothing when the roles agree, and an
immediate re-run reports no further transition (exactly once per distinct
transition). -/
theorem c6_role_transition (st : ElectionState) :
    ((edtsp_perform_election st).2 = true ↔ compute_role st ≠ st.my_role) ∧
    (edtsp_perform_election st).1.my_role = compute_role st ∧
    ((edtsp_perform_election st).2 = false → (edtsp_perform_election st).1 = st) ∧
    (edtsp_perform_election (edtsp_perform_election st).1).2 = false := by
  refine ⟨?_, rfl, ?_, ?_⟩
  · show (st.my_role != compute_role st) = true ↔ compute_role st ≠ st.my_role
    rw [bne_iff_ne]
    exact ne_comm
  · intro h2
    have heq : st.my_role = compute_role st := by
      have := h2
      rwa [show (edtsp_perform_election st).2 = (st.my_role != compute_role st) from rfl,
        bne_eq_false_iff_eq] at this
    show ({ st with my_role := compute_role st } : ElectionState) = st
    rw [← heq]
  · show (({ st with my_role := compute_role st } : ElectionState).my_role
        != compute_role { st with my_role := compute_role st }) = false
    simp [compute_role_my_role]

/-- Witness for C6: from a fresh registry (role Unknown) the first election
reports a transition; the immediate second election reports none and
leaves the state fixed. -/
theorem c6_role_transition_witness :
    (edtsp_perform_election (edtsp_election_init 7)).2 = true ∧
    (edtsp_perform_election
      ((edtsp_perform_election (edtsp_election_init 7)).1)).2 = false ∧
    (edtsp_perform_election
      ((edtsp_perform_election (edtsp_election_init 7)).1)).1
      = (edtsp_perform_election (edtsp_election_init 7)).1 :=
  ⟨(c6_role_transition (edtsp_election_init 7)).1.mpr (by decide),
   (c6_role_transition (edtsp_election_init 7)).2.2.2,
   (c6_role_transition ((edtsp_perform_election (edtsp_election_init 7)).1)).2.2.1
     (by decide)⟩

/-- An observation of an unknown id with spare capacity takes the insert
path: the record is written at slot `device_count` and the 8-bit counter
is incremented modulo 256. -/
theorem update_device_fresh (st : ElectionState) (id t r : Nat)
    (hfind : find_device_index st id = none)
    (hcap : st.device_count < EDTSP_MAX_DEVICES) :
    edtsp_update_device st id t r
      = ({ st with
            device_list := st.device_list.set st.device_count
              { device_id := id, last_heartbeat_ms := t, role := r,
                active := true },
            device_count := (st.device_count + 1) % 256 },
         UpdateOutcome.inserted) := by
  unfold edtsp_update_device
  rw [hfind, if_neg (by omega)]

/-- One step of the 256-device trace: with `n` slots already holding ids
`100..100+n-1`, observing the fresh id `100 + n` fills slot `n`. -/
theorem c2_step (n : Nat) (hlt : n < 256) :
    edtsp_update_device
      { device_list := (List.range n).map c2_device_record
          ++ List.replicate (256 - n) c2_zero_record,
        device_count := n % 256, my_device_id := 50,
        my_role := EDTSP_ROLE_UNKNOWN }
      (100 + n) 0 EDTSP_ROLE_SLAVE
      = ({ device_list := (List.range (n + 1)).map c2_device_record
            ++ List.replicate (256 - (n + 1)) c2_zero_record,
           device_count := (n + 1) % 256, my_device_id := 50,
           my_role := EDTSP_ROLE_UNKNOWN },
         UpdateOutcome.inserted) := by
  have hmod : n % 256 = n := Nat.mod_eq_of_lt hlt
  have hlenA : ((List.range n).map c2_device_record).length = n := by simp
  have hfind : find_device_index
      { device_list := (List.range n).map c2_device_record
          ++ List.replicate (256 - n) c2_zero_record,
        device_count := n % 256, my_device_id := 50,
        my_role := EDTSP_ROLE_UNKNOWN } (100 + n) = none := by
    unfold find_device_index
    show ((((List.range n).map c2_device_record)
        ++ List.replicate (256 - n) c2_zero_record).take (n % 256)).findIdx?
          (fun d => d.device_id == 100 + n) = none
    rw [hmod, List.take_left' hlenA, List.findIdx?_eq_none_iff]
    intro x hx
    obtain ⟨i, hi, rfl⟩ := List.mem_map.mp hx
    have hin : i < n := List.mem_range.mp hi
    simp only [c2_device_record, beq_eq_false_iff_ne, ne_eq]
    omega
  have hlist : (((List.range n).map c2_device_record)
        ++ List.replicate (256 - n) c2_zero_record).set (n % 256)
          { device_id := 100 + n, last_heartbeat_ms := 0,
            role := EDTSP_ROLE_SLAVE, active := true }
      = (List.range (n + 1)).map c2_device_record
          ++ List.replicate (256 - (n + 1)) c2_zero_record := by
    rw [hmod, List.set_append_right _ _ (by omega), hlenA, Nat.sub_self,
      show 256 - n = (255 - n) + 1 from by omega, List.replicate_succ,
      show (256 : Nat) - (n + 1) = 255 - n from by omega,
      List.range_succ, List.map_append, List.append_assoc]
    rfl
  have hcount : (n % 256 + 1) % 256 = (n + 1) % 256 := by rw [hmod]
  rw [update_device_fresh _ _ _ _ hfind (by simpa [hmod, EDTSP_MAX_DEVICES] using hlt)]
  simp only [hlist, hcount]

/-- The whole trace, by induction: after `n ≤ 256` fresh observations the
table holds ids `100..100+n-1` followed by zeroed slots, and the 8-bit
counter reads `n % 256`. -/
theorem c2_trace_state (n : Nat) (hn : n ≤ 256) :
    (List.range n).foldl
      (fun st i => (edtsp_update_device st (100 + i) 0 EDTSP_ROLE_SLAVE).1)
      (edtsp_election_init 50)
      = { device_list := (List.range n).map c2_device_record
            ++ List.replicate (256 - n) c2_zero_record,
          device_count := n % 256, my_device_id := 50,
          my_role := EDTSP_ROLE_UNKNOWN } := by
  induction n with
  | zero => rfl
  | succ n ih =>
    have hlt : n < 256 := hn
    rw [List.range_succ, List.foldl_append, ih (Nat.le_of_succ_le hn),
      List.foldl_cons, List.foldl_nil, c2_step n hlt, List.range_succ]

theorem c2_full_state_eq :
    c2_full_state
      = { device_list := c2_full_list, device_count := 0,
          my_device_id := 50, my_role := EDTSP_ROLE_UNKNOWN } := by
  unfold c2_full_state
  rw [c2_trace_state 256 (le_refl 256)]
  simp [c2_full_list]

set_option maxRecDepth 4000 in
/-- C2 (evaluation at the failing input): after observing 256 distinct
devices from a fresh registry, every slot is occupied (ids 100..355) but
the 8-bit `device_count` has wrapped to 0; the next observation of the
unknown id 999 is NOT rejected as registry-full — it is inserted at slot
0, overwriting the previously tracked record of device 100. -/
theorem c2_registry_full_eval :
    c2_full_state.device_list.length = EDTSP_MAX_DEVICES ∧
    c2_full_state.device_list.map (fun dv => dv.device_id)
      = (List.range 256).map (fun i => 100 + i) ∧
    c2_full_state.device_count = 0 ∧
    (edtsp_update_device c2_full_state 999 7 1).2 = UpdateOutcome.inserted ∧
    (edtsp_update_device c2_full_state 999 7 1).1.device_list.head?
      = some { device_id := 999, last_heartbeat_ms := 7, role := 1, active := true } ∧
    c2_full_state.device_list.head?
      = some { device_id := 100, last_heartbeat_ms := 0, role := 1, active := true } := by
  rw [c2_full_state_eq]
  decide

theorem c3_master_state_eq :
    c3_master_state
      = { device_list := c2_full_list, device_count := 0,
          my_device_id := 50, my_role := EDTSP_ROLE_MASTER } := by
  unfold c3_master_state
  rw [c2_full_state_eq]
  rfl

set_option maxRecDepth 4000 in
/-- C3 counterexample: with the registry full (all 256 slots hold tracked
devices) and the local role Master, a heartbeat from the unknown device
999 does recompute the role — the handler runs the election
unconditionally and the stored role changes to Slave — contradicting the
claim that such an event does not recompute the role. -/
theorem c3_counterexample :
    c3_master_state.device_list.length = EDTSP_MAX_DEVICES ∧
    c3_master_state.device_list.map (fun dv => dv.device_id)
      = (List.range 256).map (fun i => 100 + i) ∧
    find_device_index c3_master_state 999 = none ∧
    c3_master_state.my_role = EDTSP_ROLE_MASTER ∧
    (handle_heartbeat c3_master_state 8 c3_unknown_heartbeat).my_role
      = EDTSP_ROLE_SLAVE := by
  rw [c3_master_state_eq]
  decide

/-- C3 (amended): election re-evaluation runs unconditionally after every
Discovery or Heartbeat observation — the handlers recompute and store the
role whether or not the registry accepted the observation — and after a
timeout sweep exactly when some active flag flipped; a sweep with no flip
does not re-run the election and leaves the role untouched, and
invalid-header packets are dropped without recomputation. -/
theorem c3_reelection_triggers (st : ElectionState) (now now' : Nat)
    (pd : EDTSPDiscoveryPacket) (ph : EDTSPHeartbeatPacket) :
    (handle_discovery st now pd).my_role
      = compute_role
          (edtsp_update_device st pd.header.source_id now EDTSP_ROLE_UNKNOWN).1 ∧
    (handle_heartbeat st now ph).my_role
      = compute_role (edtsp_update_device st ph.header.source_id now ph.role).1 ∧
    (sweep_changed st now' = false →
      edtsp_check_timeouts st now' = (sweep_registry st now', false)) ∧
    (edtsp_check_timeouts st now').2 = sweep_changed st now' ∧
    (sweep_changed st now' = true →
      (edtsp_check_timeouts st now').1.my_role
        = compute_role (sweep_registry st now')) ∧
    (sweep_registry st now').my_role = st.my_role ∧
    (∀ p : InboundPacket, (edtsp_parse_header (inbound_header p)).2 = false →
      receive_packet st now p = st) := by
  refine ⟨rfl, rfl, ?_, ?_, ?_, rfl, ?_⟩
  · intro h
    unfold edtsp_check_timeouts
    rw [h]
    simp
  · unfold edtsp_check_timeouts
    by_cases hch : sweep_changed st now' = true
    · rw [hch]
      simp
    · have hb : sweep_changed st now' = false := by simpa using hch
      rw [hb]
      simp
  · intro h
    unfold edtsp_check_timeouts
    rw [h]
    rfl
  · intro p hp
    cases p with
    | discovery pkt =>
      simp only [receive_packet, inbound_header] at hp ⊢
      rw [hp]
      rfl
    | heartbeat pkt =>
      simp only [receive_packet, inbound_header] at hp ⊢
      rw [hp]
      rfl

/-- Witness for C3 (amended) at concrete inputs: a sweep that flips the
only record re-runs the election; a sweep that flips nothing returns the
swept registry with `changed = false`; a bad-magic packet leaves the
state untouched. -/
theorem c3_reelection_triggers_witness :
    (edtsp_check_timeouts
        (edtsp_update_device (edtsp_election_init 5) 10 0 1).1 6000).1.my_role
      = compute_role
          (sweep_registry (edtsp_update_device (edtsp_election_init 5) 10 0 1).1 6000) ∧
    edtsp_check_timeouts
        (edtsp_update_device (edtsp_election_init 5) 10 0 1).1 1000
      = (sweep_registry (edtsp_update_device (edtsp_election_init 5) 10 0 1).1 1000,
         false) ∧
    receive_packet (edtsp_election_init 5) 0
      (InboundPacket.discovery
        { header := { magic := 0, type := 1, source_id := 7, payload_len := 34 },
          interface_type := 0, version := 1, device_name := [] })
      = edtsp_election_init 5 :=
  ⟨(c3_reelection_triggers (edtsp_update_device (edtsp_election_init 5) 10 0 1).1
      0 6000
      { header := { magic := 0, type := 1, source_id := 7, payload_len := 34 },
        interface_type := 0, version := 1, device_name := [] }
      c3_unknown_heartbeat).2.2.2.2.1 (by decide),
   (c3_reelection_triggers (edtsp_update_device (edtsp_election_init 5) 10 0 1).1
      0 1000
      { header := { magic := 0, type := 1, source_id := 7, payload_len := 34 },
        interface_type := 0, version := 1, device_name := [] }
      c3_unknown_heartbeat).2.2.1 (by decide),
   (c3_reelection_triggers (edtsp_election_init 5) 0 0
      { header := { magic := 0, type := 1, source_id := 7, payload_len := 34 },
        interface_type := 0, version := 1, device_name := [] }
      c3_unknown_heartbeat).2.2.2.2.2.2 _ (by decide)⟩

/-- C9 (evaluation at the failing input): with `data_len = 65` the Data
builder returns leaving the caller's buffer bit-for-bit unchanged and
produces no error indication or diagnostic of any kind (the source
returns void and prints nothing on that path), while `data_len = 64`
writes the packet. -/
theorem c9_oversize_data_eval :
    edtsp_build_data c9_buffer 1 2 3 (some (List.replicate 65 5)) 65 = c9_buffer ∧
    edtsp_build_data c9_buffer 1 2 3 (some (List.replicate 64 5)) 64 ≠ c9_buffer ∧
    edtsp_build_data c9_buffer 1 2 3 none 64 = c9_buffer := by
  decide
